import Mathlib

/-!
Verification of the `df_anonymizer` library (shallow embedding).

The library operates on pandas DataFrames.  We embed a DataFrame as an
ordered list of named columns, each column an ordered list of cell values.
Cell values are embedded by the inductive `Value`:
  * `Value.none`  models Python `None` / pandas `NaN`;
  * `Value.int n` models numeric cells (the claims under study only involve
    integer-valued numerics, so numerics are embedded as integers);
  * `Value.str s` models text cells as lists of characters (Python
    `list(s)`, the representation the source manipulates);
  * `Value.date d` models `datetime64` cells abstractly as a day counter
    (date arithmetic in the source is day-granular `timedelta` addition).
Randomness is embedded by passing the random streams explicitly:
`np.random.randint(low, high)` draws uniformly from the half-open interval
`[low, high)`, embedded as `low + r % (high - low)` for a stream value `r`,
which has exactly that interval as its image.
-/

namespace DfAnonymizer

inductive Value where
  | none : Value
  | int : Int → Value
  | str : List Char → Value
  | date : Int → Value
deriving DecidableEq

instance : DecidableEq (Except String Value) := fun a b =>
  match a, b with
  | Except.ok x, Except.ok y =>
    if h : x = y then isTrue (by rw [h]) else isFalse (by intro hc; exact h (Except.ok.inj hc))
  | Except.error x, Except.error y =>
    if h : x = y then isTrue (by rw [h]) else isFalse (by intro hc; exact h (Except.error.inj hc))
  | Except.ok _, Except.error _ => isFalse (by intro hc; exact Except.noConfusion hc)
  | Except.error _, Except.ok _ => isFalse (by intro hc; exact Except.noConfusion hc)

/-- Python `str(v)` on a cell value, as used by `srs.astype(str)`:
`str(None) = "None"`, integers print in decimal, text is itself.
(The abstract day counter of a `date` prints as its decimal form.) -/
def valueToStr : Value → List Char
  | Value.none => ['N', 'o', 'n', 'e']
  | Value.int n => (toString n).data
  | Value.str s => s
  | Value.date d => (toString d).data

/-! ### masking.py -/

/-- The masking expression of `maskID`:
`(len(list(id_str)[0:-3]) * "*") + ''.join(list(id_str)[-3:])`.
`list(s)[0:-3]` has length `|s| - 3` truncated at zero, and `list(s)[-3:]`
is `drop (|s| - 3) s` (the whole string when `|s| < 3`). -/
def maskChars (s : List Char) : List Char :=
  List.replicate (s.length - 3) '*' ++ s.drop (s.length - 3)

/-- The body of the per-cell loop of `maskID`: `None` is appended
unchanged, non-`int`/`str` cells raise `TypeError`, otherwise the cell is
coerced to text and masked. -/
def maskIDCell : Value → Except String Value
  | Value.none => Except.ok Value.none
  | Value.int n => Except.ok (Value.str (maskChars (toString n).data))
  | Value.str s => Except.ok (Value.str (maskChars s))
  | Value.date _ => Except.error "Input must ne a string or integer number."

/-- Python `email.split("@")` for the one-character separator `"@"`:
splits at every occurrence, keeping empty parts, and `"".split("@")`
is `[""]`. -/
def splitChar (sep : Char) : List Char → List (List Char)
  | [] => [[]]
  | c :: cs =>
    if c = sep then [] :: splitChar sep cs
    else
      match splitChar sep cs with
      | [] => [[c]]
      | h :: t => (c :: h) :: t

/-- The unpacking `name, domain = email.split("@")` followed by
`list(name)[0] + len(list(name)[1:]) * "*" + "@" + domain`.
Unpacking a list of length other than two raises `ValueError`;
indexing an empty local part raises `IndexError`. -/
def maskEmailParts : List (List Char) → Except String Value
  | [] => Except.error "ValueError: not enough values to unpack (expected 2)"
  | [_] => Except.error "ValueError: not enough values to unpack (expected 2)"
  | [name, domain] =>
    match name with
    | [] => Except.error "IndexError: list index out of range"
    | c :: rest =>
      Except.ok (Value.str (c :: (List.replicate rest.length '*' ++ '@' :: domain)))
  | _ :: _ :: _ :: _ =>
    Except.error "ValueError: too many values to unpack (expected 2)"

/-- The body of the per-cell loop of `maskEmail`: `None` passes through,
non-`str` cells raise `TypeError`, otherwise split on `"@"` and mask. -/
def maskEmailCell : Value → Except String Value
  | Value.none => Except.ok Value.none
  | Value.str s => maskEmailParts (splitChar '@' s)
  | _ => Except.error "Email must be a string."

/-! ### perturbation.py -/

/-- The rounding expression shared by the numeric perturbation family:
`(val // base_number) * base_number`.  Python floor division on integers
rounds toward negative infinity, which is `Int.fdiv`. -/
def perturbInt (base v : Int) : Int := (Int.fdiv v base) * base

/-- The body of the per-cell loop of `agePerturbation`,
`weightPerturbation`, `heightPerturbation` and `dataPerturbation`: a
non-numeric cell (including `None`) raises `TypeError`, a numeric cell is
rounded down to the nearest multiple of the base. -/
def perturbCell (base : Int) : Value → Except String Value
  | Value.int n => Except.ok (Value.int (perturbInt base n))
  | _ => Except.error "Input must be a numerical data."

/-! ### pseudonymization.py -/

/-- `string.ascii_lowercase`. -/
def asciiLowercase : List Char := "abcdefghijklmnopqrstuvwxyz".data

/-- `random.choice(letters)`: a uniform draw from the 26 lowercase
letters, embedded as indexing by a stream value modulo 26 (every letter
is a possible outcome). -/
def randomChoiceLower (r : Nat) : Char :=
  asciiLowercase.get ⟨r % 26, Nat.mod_lt r (by decide)⟩

/-- `randomword()`: the concatenation of five draws of
`random.choice(string.ascii_lowercase)`. -/
def randomword (r : Nat → Nat) : List Char :=
  (List.range 5).map (fun i => randomChoiceLower (r i))

/-- `np.random.randint(low, high)` draws uniformly from the half-open
interval `[low, high)` — numpy's `high` bound is exclusive.  Embedded as
`low + r % (high - low)`, whose image over all stream values `r` is
exactly that half-open interval. -/
def npRandint (low high : Nat) (r : Nat) : Nat := low + r % (high - low)

/-- pandas `unique()` / the distinct values of a column, in order of
first appearance (pandas `Series.unique` preserves first-appearance
order; `nunique` is the length of this list). -/
def pdUnique : List Value → List Value
  | [] => []
  | v :: vs => v :: (pdUnique vs).filter (fun w => w ≠ v)

/-- Distinct textual forms, for `srs.astype(str).nunique()`. -/
def pdUniqueStr : List (List Char) → List (List Char)
  | [] => []
  | v :: vs => v :: (pdUniqueStr vs).filter (fun w => w ≠ v)

/-- `generatePseudonym(srs)`: one code per distinct textual value of the
column (`srs.astype(str).nunique()` of them), each the concatenation of
one `randomword()` with the decimal digits of
`np.random.randint(low=100000000, high=999999999)`. -/
def generatePseudonym (rnum : Nat → Nat) (rchar : Nat → Nat → Nat)
    (col : List Value) : List (List Char) :=
  (List.range ((pdUniqueStr (col.map valueToStr)).length)).map
    (fun i => randomword (rchar i) ++
      (toString (npRandint 100000000 999999999 (rnum i))).data)

/-- Python dict lookup for `dict(zip(keys, codes))`: association-list
lookup (the keys come from pandas `unique()` and are duplicate-free, so
first-match and last-match agree). -/
def dictGet : List (Value × List Char) → Value → Option (List Char)
  | [], _ => Option.none
  | (k, c) :: rest, v => if v = k then some c else dictGet rest v

/-- Modelled from the spec: `pd.Series(df[attr].unique()).sample(frac=1.0,
replace=False, random_state=122, ignore_index=True)` reorders the
distinct values by a permutation that depends only on the fixed seed 122
and the length of the series — the permutation itself is produced by
pandas, outside this repository.  It is embedded as one fixed
permutation (the identity); the theorems below about the mapping are
insensitive to which fixed permutation the seed denotes. -/
def sample122 (l : List Value) : List Value := l

/-- The pseudonym mapping built by `pseudonymization`:
`dict(zip(key_table["NRIC"], key_table["PseudoID"]))`, where the key
column is the fixed-seed shuffle of `df[attr].unique()` and the code
column is the accepted batch of generated pseudonyms.  This association
list is also the content of the persisted side table `key_table.xlsx`. -/
def pseudoMapping (codes : List (List Char)) (col : List Value) :
    List (Value × List Char) :=
  (sample122 (pdUnique col)).zip codes

/-- The replacement column `df_copy[attr].map(mapping_dict)`: every cell
is replaced by its mapped code; a cell whose value is absent from the
mapping becomes `NaN`. -/
def pseudoCont (codes : List (List Char)) (col : List Value) : List Value :=
  col.map (fun v =>
    match dictGet (pseudoMapping codes col) v with
    | some c => Value.str c
    | Option.none => Value.none)

/-! ### The DataFrame embedding -/

/-- A pandas DataFrame: an ordered list of named columns.  In pandas the
columns of one frame are aligned (all of equal length); row-wise
operations below read row `i` of each column. -/
structure DataFrame where
  cols : List (String × List Value)
deriving DecidableEq

def columnsOf (df : DataFrame) : List String := df.cols.map Prod.fst

def lookupColumn : List (String × List Value) → String → Option (List Value)
  | [], _ => Option.none
  | (n, vs) :: rest, a => if a = n then some vs else lookupColumn rest a

/-- `df[attr]` for a single column name: raises `KeyError` when the
column is absent. -/
def getCol (df : DataFrame) (attr : String) : Except String (List Value) :=
  match lookupColumn df.cols attr with
  | some vs => Except.ok vs
  | Option.none => Except.error ("KeyError: " ++ attr)

/-- `df[attr] = cont`: replaces the named column in place (appending a
new column when absent, as pandas does). -/
def setCol (df : DataFrame) (attr : String) (cont : List Value) : DataFrame :=
  if (columnsOf df).contains attr then
    ⟨df.cols.map (fun p => if p.1 = attr then (p.1, cont) else p)⟩
  else
    ⟨df.cols ++ [(attr, cont)]⟩

def nrowsOf (df : DataFrame) : Nat :=
  (df.cols.head?.map (fun p => p.2.length)).getD 0

def isDateCell : Value → Bool
  | Value.date _ => true
  | _ => false

def isNumCell : Value → Bool
  | Value.int _ => true
  | _ => false

/-- The caller's frame after a call that returned `r`: the in-place
column assignment `df[attr] = cont` is the last statement before
`return df`, so a raising call leaves the caller's frame untouched while
a successful call leaves it equal to the returned frame. -/
def afterInPlace (r : Except String DataFrame) (df : DataFrame) : DataFrame :=
  match r with
  | Except.ok df2 => df2
  | Except.error _ => df

/-- The `cont = []; for v in df[attr]: ... cont.append(...)` loop shape
shared by the per-cell transforms: a raise in any iteration aborts the
whole call. -/
def mapCells (f : Value → Except String Value) :
    List Value → Except String (List Value)
  | [] => Except.ok []
  | v :: vs =>
    match f v with
    | Except.error e => Except.error e
    | Except.ok w =>
      match mapCells f vs with
      | Except.error e => Except.error e
      | Except.ok ws => Except.ok (w :: ws)

/-! ### masking.py, frame level.  Each transform is embedded as a pair:
the returned value (`Except` for a Python raise) and the caller's frame
as it stands after the call. -/

/-- `maskID(df, attr)`: builds the masked column cell by cell and assigns
it back into the caller's frame (`df[attr] = cont; return df` — no
copy). -/
def maskID (df : DataFrame) (attr : String) :
    Except String DataFrame × DataFrame :=
  match getCol df attr with
  | Except.error e => (Except.error e, df)
  | Except.ok col =>
    match mapCells maskIDCell col with
    | Except.error e => (Except.error e, df)
    | Except.ok cont =>
      let df2 := setCol df attr cont
      (Except.ok df2, df2)

/-- `maskEmail(df, attr)`: builds the masked column cell by cell and
assigns it back into the caller's frame (`df[attr] = cont; return df` —
no copy). -/
def maskEmail (df : DataFrame) (attr : String) :
    Except String DataFrame × DataFrame :=
  match getCol df attr with
  | Except.error e => (Except.error e, df)
  | Except.ok col =>
    match mapCells maskEmailCell col with
    | Except.error e => (Except.error e, df)
    | Except.ok cont =>
      let df2 := setCol df attr cont
      (Except.ok df2, df2)

/-! ### perturbation.py, frame level -/

/-- `agePerturbation(df, attr)`: `df_copy = df.copy()`, per-cell base-3
rounding, assignment into the copy; the caller's frame is untouched. -/
def agePerturbation (df : DataFrame) (attr : String) :
    Except String DataFrame × DataFrame :=
  match getCol df attr with
  | Except.error e => (Except.error e, df)
  | Except.ok col =>
    match mapCells (perturbCell 3) col with
    | Except.error e => (Except.error e, df)
    | Except.ok cont => (Except.ok (setCol df attr cont), df)

/-- `weightPerturbation(df, attr)`: as `agePerturbation`, base 3. -/
def weightPerturbation (df : DataFrame) (attr : String) :
    Except String DataFrame × DataFrame :=
  match getCol df attr with
  | Except.error e => (Except.error e, df)
  | Except.ok col =>
    match mapCells (perturbCell 3) col with
    | Except.error e => (Except.error e, df)
    | Except.ok cont => (Except.ok (setCol df attr cont), df)

/-- `heightPerturbation(df, attr)`: as `agePerturbation`, base 5. -/
def heightPerturbation (df : DataFrame) (attr : String) :
    Except String DataFrame × DataFrame :=
  match getCol df attr with
  | Except.error e => (Except.error e, df)
  | Except.ok col =>
    match mapCells (perturbCell 5) col with
    | Except.error e => (Except.error e, df)
    | Except.ok cont => (Except.ok (setCol df attr cont), df)

/-- `dataPerturbation(df, attr, base_number)`: as `agePerturbation`,
caller-supplied base. -/
def dataPerturbation (df : DataFrame) (attr : String) (base : Int) :
    Except String DataFrame × DataFrame :=
  match getCol df attr with
  | Except.error e => (Except.error e, df)
  | Except.ok col =>
    match mapCells (perturbCell base) col with
    | Except.error e => (Except.error e, df)
    | Except.ok cont => (Except.ok (setCol df attr cont), df)

/-- `np.random.randint` over signed bounds (used with
`(-max_days, max_days + 1)` by `datePerturbation`): uniform on the
half-open interval `[low, high)`. -/
def npRandintInt (low high : Int) (r : Nat) : Int :=
  low + (r : Int) % (high - low)

/-- `datePerturbation(df, attr, max_days)`: checks the column dtype,
shifts each date by `np.random.randint(-max_days, max_days + 1)` days,
and assigns the result back into the caller's frame
(`df[attr] = cont; return df` — no copy). -/
def datePerturbation (r : Nat → Nat) (df : DataFrame) (attr : String)
    (maxDays : Nat) : Except String DataFrame × DataFrame :=
  match getCol df attr with
  | Except.error e => (Except.error e, df)
  | Except.ok col =>
    if col.all isDateCell then
      let cont := col.enum.map (fun p =>
        match p.2 with
        | Value.date d =>
          Value.date (d + npRandintInt (-(maxDays : Int)) ((maxDays : Int) + 1) (r p.1))
        | w => w)
      let df2 := setCol df attr cont
      (Except.ok df2, df2)
    else (Except.error "Input must be in datetime format.", df)

/-! ### generalization.py, frame level -/

/-- `dateGeneralization(df, attr, verbose)`: checks the column dtype,
copies the frame, and formats each date with `strftime("%Y-%m")` or
`strftime("%Y")`.  The formatting routine is pandas/C-library code, not
part of this repository, and is passed in as `fmtYM`/`fmtY` on the
abstract day counter.  The caller's frame is untouched. -/
def dateGeneralization (fmtYM fmtY : Int → List Char) (df : DataFrame)
    (attr : String) (verbose : Bool) : Except String DataFrame × DataFrame :=
  match getCol df attr with
  | Except.error e => (Except.error e, df)
  | Except.ok col =>
    if col.all isDateCell then
      let cont := col.map (fun v =>
        match v with
        | Value.date d => Value.str (if verbose then fmtYM d else fmtY d)
        | w => w)
      (Except.ok (setCol df attr cont), df)
    else (Except.error "Input must be in datetime format", df)

/-- `meanGeneralization(df, attr, bins)`: validates every cell is
numeric, bins the column with `pd.cut` (pandas-internal equal-width
binning, passed in as `cut`, yielding each cell's interval endpoints),
replaces each cell by the floor of its interval's midpoint
(`(i.left + i.right) // 2`, Python float floor division), and assigns the
result back into the caller's frame (`df[attr] = cont; return df` — no
copy). -/
def meanGeneralization (cut : List Value → Nat → List (Rat × Rat))
    (df : DataFrame) (attr : String) (bins : Nat) :
    Except String DataFrame × DataFrame :=
  match getCol df attr with
  | Except.error e => (Except.error e, df)
  | Except.ok col =>
    if col.all isNumCell then
      let cont := (cut col bins).map (fun p =>
        Value.int (Rat.floor ((p.1 + p.2) / 2)))
      let df2 := setCol df attr cont
      (Except.ok df2, df2)
    else (Except.error "Input must be a numerical data.", df)

/-- `dataBucketing(df, attr, bins, labels)`: validates every cell is
numeric, buckets the column with `pd.cut` over explicit bin edges and
labels (pandas-internal, passed in as `cutLab`, yielding the labelled
column), and assigns it back into the caller's frame
(`df[attr] = val_binned; return df` — no copy). -/
def dataBucketing (cutLab : List Value → List Int → List String → List Value)
    (df : DataFrame) (attr : String) (bins : List Int) (labels : List String) :
    Except String DataFrame × DataFrame :=
  match getCol df attr with
  | Except.error e => (Except.error e, df)
  | Except.ok col =>
    if col.all isNumCell then
      let df2 := setCol df attr (cutLab col bins labels)
      (Except.ok df2, df2)
    else (Except.error "Input must be a numerical data.", df)

/-! ### suppression.py and shuffling.py, frame level -/

/-- `attributeSuppression(df, attrs)`: copies the frame and drops the
named columns; `drop` raises `KeyError` when a named column is absent.
The caller's frame is untouched. -/
def attributeSuppression (df : DataFrame) (attrs : List String) :
    Except String DataFrame × DataFrame :=
  if attrs.all (fun a => (columnsOf df).contains a) then
    (Except.ok ⟨df.cols.filter (fun p => !(attrs.contains p.1))⟩, df)
  else (Except.error "KeyError", df)

def dfEmpty (df : DataFrame) : Bool :=
  df.cols.isEmpty || decide (nrowsOf df = 0)

def maskFilter (keep : List Bool) (vs : List Value) : List Value :=
  ((keep.zip vs).filter (fun p => p.1)).map Prod.snd

/-- One step `df_copy = df_copy[~df_copy[attr].isin(ex)]`: every column
is filtered by the boolean mask computed from the targeted column. -/
def filterOut (dfc : DataFrame) (a : String) (ex : List Value) : DataFrame :=
  let keep := ((lookupColumn dfc.cols a).getD []).map (fun v => !(ex.contains v))
  ⟨dfc.cols.map (fun p => (p.1, maskFilter keep p.2))⟩

def recordSuppressionGo : DataFrame → List (String × List Value) →
    Except String DataFrame
  | dfc, [] => Except.ok dfc
  | dfc, (a, ex) :: rest =>
    if (columnsOf dfc).contains a then
      recordSuppressionGo (filterOut dfc a ex) rest
    else Except.error ("Attribute " ++ a ++ " not found in the dataframe.")

/-- `recordSuppression(df, attr_lst, attr_ex)`: copies the frame, checks
emptiness and matching list lengths, then per `(attr, ex)` pair drops the
rows whose `attr` value lies in `ex`; `reset_index(drop=True)` renumbers
rows (the identity in this embedding, which has no index column).  The
caller's frame is untouched. -/
def recordSuppression (df : DataFrame) (attrLst : List String)
    (attrEx : List (List Value)) : Except String DataFrame × DataFrame :=
  if dfEmpty df then (Except.error "Dataframe is empty.", df)
  else if attrLst.length ≠ attrEx.length then
    (Except.error
      "Number of attribute(s) and list of the attribute conditions must be the same.",
      df)
  else (recordSuppressionGo df (attrLst.zip attrEx), df)

/-- `dataShuffling(df)`: `df.sample(frac=1)` draws a random permutation
of the rows — produced by pandas' sampler, passed in as the index list
`perm` — and `reset_index(drop=True)` renumbers them.  `sample` returns
a new frame; the caller's frame is untouched. -/
def dataShuffling (perm : List Nat) (df : DataFrame) :
    Except String DataFrame × DataFrame :=
  (Except.ok ⟨df.cols.map (fun p => (p.1, perm.filterMap (fun i => p.2[i]?)))⟩,
    df)

/-! ### pseudonymization.py, frame level -/

/-- `pseudonymization(df, attr)`: `df_copy = df.copy()`; the retry loop
repeatedly calls `generatePseudonym` until the batch has no duplicate —
the accepted batch is the parameter `codes`, and the loop's exit
condition appears as a hypothesis where a theorem needs it; the mapping
(also written as the side table `key_table.xlsx`) is
`pseudoMapping codes col`; the mapped column is assigned into the copy
and the copy returned.  The caller's frame is untouched. -/
def pseudonymization (codes : List (List Char)) (df : DataFrame)
    (attr : String) : Except String DataFrame × DataFrame :=
  match getCol df attr with
  | Except.error e => (Except.error e, df)
  | Except.ok col =>
    (Except.ok (setCol df attr (pseudoCont codes col)), df)

/-! ### evaluation.py -/

inductive KErr where
  | missingCols : List String → KErr
  | emptySequence : KErr
deriving DecidableEq

/-- Row `i` of the projection `df[quasi_identifier]`, as the tuple of the
row's quasi-identifier values. -/
def rowTuple (df : DataFrame) (qi : List String) (i : Nat) : List Value :=
  qi.map (fun c =>
    ((lookupColumn df.cols c).bind (fun vs => vs[i]?)).getD Value.none)

/-- `calculateKAnonymity(df, quasi_identifier)`: validates that every
requested column exists (else raises `ValueError` naming the missing
columns, `set(quasi_identifier) - set(df.columns)`); projects each row to
its quasi-identifier tuple, counts each distinct tuple, and returns the
minimum count (`min` of an empty sequence raises `ValueError`). -/
def calculateKAnonymity (df : DataFrame) (qi : List String) :
    Except KErr Nat :=
  if ∀ c ∈ qi, c ∈ columnsOf df then
    let tuples := (List.range (nrowsOf df)).map (rowTuple df qi)
    let counts := tuples.dedup.map (fun t => tuples.count t)
    match counts.min? with
    | some k => Except.ok k
    | Option.none => Except.error KErr.emptySequence
  else
    Except.error (KErr.missingCols
      ((qi.filter (fun c => c ∉ columnsOf df)).dedup))

theorem maskChars_length (s : List Char) : (maskChars s).length = s.length := by
  simp [maskChars]

theorem splitChar_ne_nil (sep : Char) (l : List Char) : splitChar sep l ≠ [] := by
  induction l with
  | nil => simp [splitChar]
  | cons c cs ih =>
    simp only [splitChar]
    by_cases h : c = sep
    · simp [h]
    · simp only [h, if_false]
      cases hs : splitChar sep cs with
      | nil => simp
      | cons h t => simp

theorem splitChar_length (sep : Char) (l : List Char) :
    (splitChar sep l).length = l.count sep + 1 := by
  induction l with
  | nil => simp [splitChar]
  | cons c cs ih =>
    simp only [splitChar]
    by_cases h : c = sep
    · simp [h, List.count_cons, ih]
    · cases hs : splitChar sep cs with
      | nil => exact absurd hs (splitChar_ne_nil sep cs)
      | cons hd tl =>
        have : (splitChar sep cs).length = cs.count sep + 1 := ih
        rw [hs] at this
        simp only [h, if_false, hs, List.length_cons] at this ⊢
        simp [List.count_cons, h, ← this]

end DfAnonymizer

namespace DfAnonymizer

/-- C5: claimed output of identifier masking on `"S1234567A"`.
The claim states the result is the 8-character string `"*****67A"` (five
mask characters); the code keeps the last three characters of the
9-character input and masks the other six, producing `"******67A"`. -/
theorem maskID_S1234567A_not_five_stars :
    maskIDCell (Value.str "S1234567A".data) ≠
      Except.ok (Value.str "*****67A".data) := by
  decide

/-- C5 (amended): identifier masking applied to the single value
`"S1234567A"` yields exactly the string `"******67A"` (six mask
characters followed by the last three characters of the input). -/
theorem maskID_S1234567A :
    maskIDCell (Value.str "S1234567A".data) =
      Except.ok (Value.str "******67A".data) := by
  decide

/-- C6: for every text cell, identifier masking succeeds and returns a
string of exactly the input's length, with every character before the
last three replaced by the mask character and the last three kept. -/
theorem maskID_preserves_length (s : List Char) :
    maskIDCell (Value.str s) = Except.ok (Value.str (maskChars s)) ∧
    (maskChars s).length = s.length ∧
    (∀ c ∈ (maskChars s).take (s.length - 3), c = '*') ∧
    (maskChars s).drop (s.length - 3) = s.drop (s.length - 3) := by
  refine ⟨rfl, maskChars_length s, ?_, ?_⟩
  · intro c hc
    have htake : (maskChars s).take (s.length - 3) =
        List.replicate (s.length - 3) '*' := by
      simp [maskChars]
    rw [htake] at hc
    exact List.eq_of_mem_replicate hc
  · have hdrop : (maskChars s).drop (s.length - 3) = s.drop (s.length - 3) := by
      simp [maskChars]
    exact hdrop

/-- C9: a text cell whose textual form has length at most three passes
through identifier masking completely unmasked. -/
theorem maskID_short_unmasked (s : List Char) (h : s.length ≤ 3) :
    maskIDCell (Value.str s) = Except.ok (Value.str s) := by
  simp [maskIDCell, maskChars, Nat.sub_eq_zero_of_le h]

/-- Witness for C9 at the concrete two-character identifier `"ab"`. -/
theorem maskID_short_unmasked_witness :
    "ab".data.length ≤ 3 ∧
      maskIDCell (Value.str "ab".data) = Except.ok (Value.str "ab".data) :=
  ⟨by decide, maskID_short_unmasked "ab".data (by decide)⟩

/-- C10: email masking raises an error on every text cell containing two
or more `@` characters: the two-variable unpacking of `split("@")` fails
whenever the split yields other than exactly two parts. -/
theorem maskEmail_multiple_at_errors (s : List Char) (h : 2 ≤ s.count '@') :
    ∃ e, maskEmailCell (Value.str s) = Except.error e := by
  have hlen : (splitChar '@' s).length = s.count '@' + 1 := splitChar_length '@' s
  have h3 : 3 ≤ (splitChar '@' s).length := by omega
  rcases hl : splitChar '@' s with _ | ⟨a, _ | ⟨b, _ | ⟨c, t⟩⟩⟩
  · rw [hl] at h3; simp at h3
  · rw [hl] at h3; simp at h3
  · rw [hl] at h3; simp at h3
  · refine ⟨"ValueError: too many values to unpack (expected 2)", ?_⟩
    simp only [maskEmailCell, hl]
    rfl

/-- Witness for C10 at the concrete cell `"a@b@c"`. -/
theorem maskEmail_multiple_at_errors_witness :
    2 ≤ "a@b@c".data.count '@' ∧
      ∃ e, maskEmailCell (Value.str "a@b@c".data) = Except.error e :=
  ⟨by decide, maskEmail_multiple_at_errors "a@b@c".data (by decide)⟩

/-- C7: for every integer value `v` and base `b > 0`, the perturbed value
`(v // b) * b` is at most `v` and differs from `v` by less than `b`;
floor division rounds toward negative infinity, so this also holds for
negative `v`. -/
theorem perturbInt_bounds (v b : Int) (hb : 0 < b) :
    perturbInt b v ≤ v ∧ v - perturbInt b v < b := by
  have h1 : perturbInt b v = v / b * b := by
    simp [perturbInt, Int.fdiv_eq_ediv v (le_of_lt hb)]
  constructor
  · rw [h1]
    exact Int.ediv_mul_le v (ne_of_gt hb)
  · rw [h1]
    have h2 : v % b = v - b * (v / b) := Int.emod_def v b
    have h3 : v % b < b := Int.emod_lt_of_pos v hb
    have h4 : v - v / b * b = v % b := by rw [h2]; ring
    rw [h4]
    exact h3

/-- Witness for C7 at the negative value `v = -7`, `b = 3`
(`-7 // 3 = -3` in floor-division semantics, so the perturbed value is
`-9`). -/
theorem perturbInt_bounds_witness :
    (0 : Int) < 3 ∧ (perturbInt 3 (-7) ≤ -7 ∧ (-7 : Int) - perturbInt 3 (-7) < 3) :=
  ⟨by decide, perturbInt_bounds (-7) 3 (by decide)⟩

/-- C3: the numeric part `999999999` is unreachable: numpy's
`randint(low=100000000, high=999999999)` excludes its `high` bound, so no
stream value produces `999999999`, contradicting the claim that the
closed interval up to and including `999999999` is drawn from. -/
theorem npRandint_never_999999999 :
    ¬ ∃ r : Nat, npRandint 100000000 999999999 r = 999999999 := by
  rintro ⟨r, hr⟩
  simp [npRandint] at hr
  omega

/-- C3 (amended): every code produced by `generatePseudonym` consists of
a 5-letter lowercase word followed by the decimal form of a number drawn
from the half-open interval `[100000000, 999999999)`, i.e. at most
`999999998`; and every number of that half-open interval, including
`999999998`, is a possible numeric part. -/
theorem generatePseudonym_shape (rnum : Nat → Nat) (rchar : Nat → Nat → Nat)
    (col : List Value) (c : List Char)
    (hc : c ∈ generatePseudonym rnum rchar col) :
    (∃ w num, c = w ++ (toString num).data ∧ w.length = 5 ∧
      (∀ ch ∈ w, 'a' ≤ ch ∧ ch ≤ 'z') ∧
      100000000 ≤ num ∧ num ≤ 999999998) ∧
    (∀ m : Nat, 100000000 ≤ m → m ≤ 999999998 →
      ∃ r : Nat, npRandint 100000000 999999999 r = m) := by
  constructor
  · rcases List.mem_map.mp hc with ⟨i, _, rfl⟩
    refine ⟨randomword (rchar i), npRandint 100000000 999999999 (rnum i),
      rfl, by simp [randomword], ?_, ?_, ?_⟩
    · intro ch hch
      rcases List.mem_map.mp hch with ⟨j, _, rfl⟩
      have hmem : randomChoiceLower (rchar i j) ∈ asciiLowercase :=
        List.get_mem _ _ _
      have hall : ∀ d ∈ asciiLowercase, 'a' ≤ d ∧ d ≤ 'z' := by decide
      exact hall _ hmem
    · simp [npRandint]
    · have : rnum i % 899999999 < 899999999 := Nat.mod_lt _ (by decide)
      simp only [npRandint]
      omega
  · intro m hm1 hm2
    refine ⟨m - 100000000, ?_⟩
    simp only [npRandint]
    have : (m - 100000000) % 899999999 = m - 100000000 :=
      Nat.mod_eq_of_lt (by omega)
    omega

theorem mem_pdUnique {v : Value} {l : List Value} : v ∈ pdUnique l ↔ v ∈ l := by
  induction l with
  | nil => simp [pdUnique]
  | cons w ws ih =>
    simp only [pdUnique, List.mem_cons]
    constructor
    · rintro (rfl | h)
      · exact Or.inl rfl
      · exact Or.inr (ih.mp (List.mem_of_mem_filter h))
    · rintro (rfl | h)
      · exact Or.inl rfl
      · by_cases hv : v = w
        · exact Or.inl hv
        · refine Or.inr (List.mem_filter.mpr ⟨ih.mpr h, ?_⟩)
          simp [hv]

theorem dictGet_zip_mem (keys : List Value) (codes : List (List Char))
    (hlen : keys.length = codes.length) (v : Value) (hv : v ∈ keys) :
    ∃ c ∈ codes, dictGet (keys.zip codes) v = some c := by
  induction keys generalizing codes with
  | nil => cases hv
  | cons k ks ih =>
    cases codes with
    | nil => simp at hlen
    | cons c cs =>
      by_cases hvk : v = k
      · exact ⟨c, by simp, by simp [dictGet, hvk]⟩
      · rcases List.mem_cons.mp hv with h | h
        · exact absurd h hvk
        · rcases ih cs (by simpa using hlen) h with ⟨c2, hc2, hd⟩
          refine ⟨c2, by simp [hc2], ?_⟩
          simp only [List.zip_cons_cons, dictGet, if_neg hvk]
          exact hd

theorem map_snd_zip_nodup (keys : List Value) (codes : List (List Char))
    (h : codes.Nodup) : ((keys.zip codes).map Prod.snd).Nodup := by
  induction keys generalizing codes with
  | nil => simp
  | cons k ks ih =>
    cases codes with
    | nil => simp
    | cons c cs =>
      rcases List.nodup_cons.mp h with ⟨hc, hcs⟩
      refine List.nodup_cons.mpr ⟨?_, ih cs hcs⟩
      intro hmem
      rcases List.mem_map.mp hmem with ⟨⟨a, b⟩, hab, hb⟩
      have hbcs := (List.of_mem_zip hab).2
      have hb2 : b = c := hb
      rw [hb2] at hbcs
      exact hc hbcs

/-- C2: within one invocation of `pseudonymization`, under the exit
condition of the rejection loop (the accepted batch of codes is
duplicate-free, with one code per distinct textual value) and for a
column whose values have pairwise distinct textual forms, the codes
placed in the mapping are pairwise distinct, equal cells are replaced by
equal cells, and every cell's value is mapped to one of the accepted
codes. -/
theorem pseudonymization_mapping_invariant (col : List Value)
    (codes : List (List Char)) (hnodup : codes.Nodup)
    (hlen : codes.length = (pdUniqueStr (col.map valueToStr)).length)
    (hstr : (pdUnique col).length = (pdUniqueStr (col.map valueToStr)).length) :
    ((pseudoMapping codes col).map Prod.snd).Nodup ∧
    (∀ i j : Nat, col[i]? = col[j]? →
      (pseudoCont codes col)[i]? = (pseudoCont codes col)[j]?) ∧
    (∀ v ∈ col, ∃ c ∈ codes, dictGet (pseudoMapping codes col) v = some c) := by
  refine ⟨map_snd_zip_nodup _ _ hnodup, ?_, ?_⟩
  · intro i j hij
    simp only [pseudoCont, List.getElem?_map, hij]
  · intro v hv
    exact dictGet_zip_mem (pdUnique col) codes (by rw [hstr, hlen]) v
      (mem_pdUnique.mpr hv)

/-- Witness for C2 at the three-row column `["A", "B", "A"]` with a
concrete duplicate-free batch of two codes. -/
theorem pseudonymization_mapping_invariant_witness :
    ([['u'], ['v']] : List (List Char)).Nodup ∧
    ([['u'], ['v']] : List (List Char)).length =
      (pdUniqueStr (([Value.str ['A'], Value.str ['B'],
        Value.str ['A']]).map valueToStr)).length ∧
    (pdUnique [Value.str ['A'], Value.str ['B'], Value.str ['A']]).length =
      (pdUniqueStr (([Value.str ['A'], Value.str ['B'],
        Value.str ['A']]).map valueToStr)).length ∧
    (((pseudoMapping [['u'], ['v']]
        [Value.str ['A'], Value.str ['B'], Value.str ['A']]).map Prod.snd).Nodup ∧
      (∀ i j : Nat,
        ([Value.str ['A'], Value.str ['B'], Value.str ['A']])[i]? =
          ([Value.str ['A'], Value.str ['B'], Value.str ['A']])[j]? →
        (pseudoCont [['u'], ['v']]
          [Value.str ['A'], Value.str ['B'], Value.str ['A']])[i]? =
        (pseudoCont [['u'], ['v']]
          [Value.str ['A'], Value.str ['B'], Value.str ['A']])[j]?) ∧
      (∀ v ∈ [Value.str ['A'], Value.str ['B'], Value.str ['A']],
        ∃ c ∈ ([['u'], ['v']] : List (List Char)),
          dictGet (pseudoMapping [['u'], ['v']]
            [Value.str ['A'], Value.str ['B'], Value.str ['A']]) v = some c)) :=
  ⟨by decide, by decide, by decide,
    pseudonymization_mapping_invariant
      [Value.str ['A'], Value.str ['B'], Value.str ['A']]
      [['u'], ['v']] (by decide) (by decide) (by decide)⟩

/-- C4: the mapping depends on row order.  The two columns `["A", "B"]`
and `["B", "A"]` hold the same multiset of values, yet with the same
accepted batch of codes `pseudonymization` pairs the shuffled
first-appearance sequences of distinct values with the codes, producing
different mappings (and hence different side tables). -/
theorem pseudoMapping_row_order_dependent :
    ([Value.str ['A'], Value.str ['B']] : List Value).Perm
      [Value.str ['B'], Value.str ['A']] ∧
    pseudoMapping [['u'], ['v']] [Value.str ['A'], Value.str ['B']] ≠
      pseudoMapping [['u'], ['v']] [Value.str ['B'], Value.str ['A']] := by
  constructor
  · exact List.Perm.swap (Value.str ['B']) (Value.str ['A']) []
  · decide

/-- C4 (amended): the mapping depends on the target column only through
its sequence of distinct values in first-appearance order: two columns
with the same distinct values in the same first-appearance order receive
the same mapping under the same code randomness.  Mere multiset equality
does not suffice, since reordering rows permutes first appearances and
thereby reassigns the codes. -/
theorem pseudoMapping_first_appearance (col1 col2 : List Value)
    (codes : List (List Char)) (h : pdUnique col1 = pdUnique col2) :
    pseudoMapping codes col1 = pseudoMapping codes col2 := by
  simp [pseudoMapping, sample122, h]

/-- Witness for C4's amended theorem at the columns `["A", "A", "B"]`
and `["A", "B", "B"]`, which share the first-appearance sequence
`["A", "B"]`. -/
theorem pseudoMapping_first_appearance_witness :
    pdUnique [Value.str ['A'], Value.str ['A'], Value.str ['B']] =
      pdUnique [Value.str ['A'], Value.str ['B'], Value.str ['B']] ∧
    pseudoMapping [['u'], ['v']]
        [Value.str ['A'], Value.str ['A'], Value.str ['B']] =
      pseudoMapping [['u'], ['v']]
        [Value.str ['A'], Value.str ['B'], Value.str ['B']] :=
  ⟨by decide,
    pseudoMapping_first_appearance
      [Value.str ['A'], Value.str ['A'], Value.str ['B']]
      [Value.str ['A'], Value.str ['B'], Value.str ['B']]
      [['u'], ['v']] (by decide)⟩

/-- Witness for C3's amended theorem: with the all-zero streams and a
one-value column, the single generated code is `"aaaaa100000000"`. -/
theorem generatePseudonym_shape_witness :
    "aaaaa100000000".data ∈
        generatePseudonym (fun _ => 0) (fun _ _ => 0) [Value.str ['x']] ∧
      ((∃ w num, "aaaaa100000000".data = w ++ (toString num).data ∧
          w.length = 5 ∧
          (∀ ch ∈ w, 'a' ≤ ch ∧ ch ≤ 'z') ∧
          100000000 ≤ num ∧ num ≤ 999999998) ∧
        (∀ m : Nat, 100000000 ≤ m → m ≤ 999999998 →
          ∃ r : Nat, npRandint 100000000 999999999 r = m)) :=
  ⟨by decide,
    generatePseudonym_shape (fun _ => 0) (fun _ _ => 0) [Value.str ['x']]
      "aaaaa100000000".data (by decide)⟩

/-- C8: when the quasi-identifier list contains a column absent from the
frame, the k-anonymity evaluator raises an error whose payload names
exactly the missing columns, and no score is returned. -/
theorem calculateKAnonymity_missing_column (df : DataFrame)
    (qi : List String) (h : ∃ c ∈ qi, c ∉ columnsOf df) :
    ∃ missing, calculateKAnonymity df qi = Except.error (KErr.missingCols missing) ∧
      missing ≠ [] ∧
      (∀ c, c ∈ missing ↔ (c ∈ qi ∧ c ∉ columnsOf df)) ∧
      (∀ k, calculateKAnonymity df qi ≠ Except.ok k) := by
  rcases h with ⟨c0, hc0, hc0n⟩
  have hcond : ¬ ∀ c ∈ qi, c ∈ columnsOf df := fun hall => hc0n (hall c0 hc0)
  refine ⟨(qi.filter (fun c => c ∉ columnsOf df)).dedup, ?_, ?_, ?_, ?_⟩
  · simp only [calculateKAnonymity, if_neg hcond]
  · have : c0 ∈ (qi.filter (fun c => c ∉ columnsOf df)).dedup := by
      simp [List.mem_dedup, List.mem_filter, hc0, hc0n]
    exact List.ne_nil_of_mem this
  · intro c
    simp [List.mem_dedup, List.mem_filter]
  · intro k
    simp only [calculateKAnonymity, if_neg hcond]
    intro hcontra
    exact Except.noConfusion hcontra

/-- Witness for C8: a one-column frame queried with quasi-identifiers
`["age", "zip"]`, of which `"zip"` is absent. -/
theorem calculateKAnonymity_missing_column_witness :
    (∃ c ∈ (["age", "zip"] : List String),
        c ∉ columnsOf ⟨[("age", [Value.int 34])]⟩) ∧
    ∃ missing,
      calculateKAnonymity ⟨[("age", [Value.int 34])]⟩ ["age", "zip"] =
        Except.error (KErr.missingCols missing) ∧
      missing ≠ [] ∧
      (∀ c, c ∈ missing ↔
        (c ∈ (["age", "zip"] : List String) ∧
          c ∉ columnsOf ⟨[("age", [Value.int 34])]⟩)) ∧
      (∀ k, calculateKAnonymity ⟨[("age", [Value.int 34])]⟩ ["age", "zip"] ≠
        Except.ok k) :=
  ⟨⟨"zip", by decide, by decide⟩,
    calculateKAnonymity_missing_column ⟨[("age", [Value.int 34])]⟩
      ["age", "zip"] ⟨"zip", by decide, by decide⟩⟩

/-- C1: the claim that no transform ever mutates the caller's table is
false: a successful `maskID` call writes the masked column back into the
very frame the caller passed in. -/
theorem maskID_mutates_input :
    (maskID ⟨[("NRIC", [Value.str "S1234567A".data])]⟩ "NRIC").2 ≠
      ⟨[("NRIC", [Value.str "S1234567A".data])]⟩ := by
  decide

/-- C1 (amended): the numeric perturbation family, date generalization,
attribute and record suppression, shuffling and pseudonymization operate
on a copy and leave the caller's frame unchanged whether they succeed or
raise; identifier masking, email masking, date perturbation, mean
generalization and bucketing assign the transformed column back into the
caller's frame, so on success the caller's frame equals the returned
frame, while on a raise (which happens before the assignment) the
caller's frame is left unchanged. -/
theorem transforms_frame_behaviour (df : DataFrame) (attr : String)
    (b : Int) (r : Nat → Nat) (maxDays : Nat) (fmtYM fmtY : Int → List Char)
    (verbose : Bool) (cut : List Value → Nat → List (Rat × Rat)) (bins : Nat)
    (cutLab : List Value → List Int → List String → List Value)
    (edges : List Int) (labels : List String) (attrs : List String)
    (attrLst : List String) (attrEx : List (List Value)) (perm : List Nat)
    (codes : List (List Char)) :
    (agePerturbation df attr).2 = df ∧
    (weightPerturbation df attr).2 = df ∧
    (heightPerturbation df attr).2 = df ∧
    (dataPerturbation df attr b).2 = df ∧
    (dateGeneralization fmtYM fmtY df attr verbose).2 = df ∧
    (attributeSuppression df attrs).2 = df ∧
    (recordSuppression df attrLst attrEx).2 = df ∧
    (dataShuffling perm df).2 = df ∧
    (pseudonymization codes df attr).2 = df ∧
    (maskID df attr).2 = afterInPlace (maskID df attr).1 df ∧
    (maskEmail df attr).2 = afterInPlace (maskEmail df attr).1 df ∧
    (datePerturbation r df attr maxDays).2 =
      afterInPlace (datePerturbation r df attr maxDays).1 df ∧
    (meanGeneralization cut df attr bins).2 =
      afterInPlace (meanGeneralization cut df attr bins).1 df ∧
    (dataBucketing cutLab df attr edges labels).2 =
      afterInPlace (dataBucketing cutLab df attr edges labels).1 df := by
  refine ⟨?_, ?_, ?_, ?_, ?_, ?_, ?_, ?_, ?_, ?_, ?_, ?_, ?_, ?_⟩
  · simp only [agePerturbation]
    split
    · rfl
    · split <;> rfl
  · simp only [weightPerturbation]
    split
    · rfl
    · split <;> rfl
  · simp only [heightPerturbation]
    split
    · rfl
    · split <;> rfl
  · simp only [dataPerturbation]
    split
    · rfl
    · split <;> rfl
  · simp only [dateGeneralization]
    split
    · rfl
    · split <;> rfl
  · simp only [attributeSuppression]
    split <;> rfl
  · simp only [recordSuppression]
    split
    · rfl
    · split <;> rfl
  · rfl
  · simp only [pseudonymization]
    split <;> rfl
  · simp only [maskID, afterInPlace]
    split
    · rfl
    · split <;> rfl
  · simp only [maskEmail, afterInPlace]
    split
    · rfl
    · split <;> rfl
  · simp only [datePerturbation, afterInPlace]
    split
    · rfl
    · split <;> rfl
  · simp only [meanGeneralization, afterInPlace]
    split
    · rfl
    · split <;> rfl
  · simp only [dataBucketing, afterInPlace]
    split
    · rfl
    · split <;> rfl

end DfAnonymizer
